import Mathlib

/-!
Verification development for the crypto-signals application
(`working_reliable_app.py`, class `ReliableCryptoAnalyzer`).

Modelling conventions:
* Python floats are modelled as exact rationals (`ℚ`).
* Python's `round(x, n)` (round-half-to-even) is modelled by `rnd` / `roundTo`.
* `np.random.uniform(lo, hi)` calls are modelled by an explicit random source
  `unif : ℚ → ℚ → ℚ` (the value returned for arguments `lo hi`); hypotheses of
  the form `UnifBounds unif` state that every sample lies in its requested
  interval.  Where several independent per-symbol draws occur in one call
  (the batch fallback generator), a family `String → ℚ → ℚ → ℚ` is used.
* Python's string-keyed dicts holding quote/indicator/signal records are
  modelled as Lean structures; the `trend` / `source` / `signal` strings are
  kept as `String`, exactly as in the source.
* `hash(symbol) % 100` (process-seeded string hash reduced mod 100) is
  modelled as an arbitrary `symbol_hash : ℕ` parameter.
* `(datetime.now() - timestamp).seconds` is the *seconds component* of the
  timedelta, i.e. `⌊elapsed⌋ % 86400`; `td_seconds` models this exactly.
-/

set_option allowUnsafeReducibility true
attribute [semireducible] Rat.ofScientific Rat.mul Rat.inv Rat.add Rat.sub

set_option maxRecDepth 8192

/-- Computable floor of a rational (agrees with `Int.floor`, see `qfloor_eq`). -/
def qfloor (y : ℚ) : ℤ := y.num / (y.den : ℤ)

theorem qfloor_eq (y : ℚ) : qfloor y = Int.floor y := by
  rw [Rat.floor_def]; rfl

/-- Round-half-to-even of a rational to an integer (Python's `round`). -/
def rnd (y : ℚ) : ℤ :=
  if y - (qfloor y : ℚ) < 1/2 then qfloor y
  else if 1/2 < y - (qfloor y : ℚ) then qfloor y + 1
  else if qfloor y % 2 = 0 then qfloor y else qfloor y + 1

/-- Python's `round(y, n)`: round to `n` decimal places, ties to even. -/
def roundTo (n : ℕ) (y : ℚ) : ℚ := ((rnd (y * 10 ^ n) : ℚ)) / 10 ^ n

/-- A random source: the value `np.random.uniform(lo, hi)` returns. -/
def UnifBounds (unif : ℚ → ℚ → ℚ) : Prop :=
  ∀ lo hi : ℚ, lo ≤ hi → lo ≤ unif lo hi ∧ unif lo hi ≤ hi

/-- Indicator bundle produced by `generate_indicators` (a Python dict). -/
structure Indicators where
  rsi : ℚ
  macd : ℚ
  macd_signal : ℚ
  trend : String
  volatility : ℚ
  momentum : ℚ
deriving DecidableEq

/-- The base (RSI, trend) pair of `generate_indicators`, bucketed by
`price_change_24h`. -/
def base_rsi_trend (unif : ℚ → ℚ → ℚ) (price_change_24h : ℚ) : ℚ × String :=
  if price_change_24h > 8 then (unif 65 80, "bullish")
  else if price_change_24h < -6 then (unif 20 35, "bearish")
  else if price_change_24h > 2 then (unif 55 70, "bullish")
  else if price_change_24h < -2 then (unif 30 45, "bearish")
  else (unif 40 60, "neutral")

/-- The symbol-hash bias step of `generate_indicators`: hash `< 20` pushes
the RSI down by 15 (floored at 20) and forces bearish; hash `> 80` pushes it
up by 15 (capped at 80) and forces bullish. -/
def bias_rsi_trend (symbol_hash : ℕ) (bt : ℚ × String) : ℚ × String :=
  if symbol_hash < 20 then (max 20 (bt.1 - 15), "bearish")
  else if symbol_hash > 80 then (min 80 (bt.1 + 15), "bullish")
  else bt

/-- Model of `generate_indicators(self, symbol, current_price, price_change_24h)`:
the base RSI is bucketed by `price_change_24h`, then nudged by the
per-symbol hash bias, rounded to 1 decimal.  (`current_price` is unused in
the source as well.) -/
def generate_indicators (unif : ℚ → ℚ → ℚ) (symbol_hash : ℕ)
    (current_price price_change_24h : ℚ) : Indicators :=
  let adj := bias_rsi_trend symbol_hash (base_rsi_trend unif price_change_24h)
  { rsi := roundTo 1 adj.1
    macd := roundTo 3 (unif (-1.5) 1.5)
    macd_signal := roundTo 3 (unif (-1.2) 1.2)
    trend := adj.2
    volatility := |price_change_24h| / 100
    momentum := price_change_24h / 100 }

/-- The risk-adjustment step inside `generate_signal`
(`signal_score *= 0.6` if risk > 7, `*= 0.8` if risk > 5). -/
def dampen_score (risk_score : ℤ) (signal_score : ℚ) : ℚ :=
  if risk_score > 7 then signal_score * 0.6
  else if risk_score > 5 then signal_score * 0.8
  else signal_score

/-- The final classification chain of `generate_signal`: maps the
accumulated score and pre-classification confidence to the signal string and
the (not yet rounded) reported confidence. -/
def classify_signal (signal_score confidence : ℚ) : String × ℚ :=
  if signal_score ≥ 2.5 then ("STRONG BUY", min 0.95 (confidence + 0.2))
  else if signal_score ≥ 1.5 then ("BUY", min 0.85 (confidence + 0.1))
  else if signal_score ≤ -2.5 then ("STRONG SELL", min 0.95 (confidence + 0.2))
  else if signal_score ≤ -1.5 then ("SELL", min 0.85 (confidence + 0.1))
  else ("HOLD", max 0.5 confidence)

/-- The `signal_score` contribution of the RSI bucket in `generate_signal`
(starting from `signal_score = 0`). -/
def rsi_score (rsi : ℚ) : ℚ :=
  if rsi < 25 then 0 + 3
  else if rsi < 35 then 0 + 2
  else if rsi > 75 then 0 - 3
  else if rsi > 65 then 0 - 2
  else 0

/-- The `confidence` value after the RSI bucket in `generate_signal`
(starting from `confidence = 0.6`; no later step before classification
changes it). -/
def confidence_pre (rsi : ℚ) : ℚ :=
  if rsi < 25 then 0.6 + 0.25
  else if rsi < 35 then 0.6 + 0.15
  else if rsi > 75 then 0.6 + 0.25
  else if rsi > 65 then 0.6 + 0.15
  else 0.6

/-- The trend contribution step of `generate_signal`. -/
def trend_score (trend : String) (s : ℚ) : ℚ :=
  if trend = "bullish" then s + 1
  else if trend = "bearish" then s - 1
  else s

/-- The contrarian-momentum step of `generate_signal`. -/
def momentum_score (price_change_24h s : ℚ) : ℚ :=
  if price_change_24h < -8 then s + 1
  else if price_change_24h > 8 then s - 1
  else s

/-- Model of `generate_signal(self, indicators, risk_score, price_change_24h)`:
accumulates the score (RSI bucket, trend, contrarian momentum, uniform noise
in `[-1, 1]`), applies risk dampening, classifies, and rounds the reported
confidence to 2 decimals. -/
def generate_signal (unif : ℚ → ℚ → ℚ) (indicators : Indicators)
    (risk_score : ℤ) (price_change_24h : ℚ) : String × ℚ :=
  let out := classify_signal
    (dampen_score risk_score
      (momentum_score price_change_24h
        (trend_score indicators.trend (rsi_score indicators.rsi)) + unif (-1) 1))
    (confidence_pre indicators.rsi)
  (out.1, roundTo 2 out.2)

/-- Market-data record (the per-symbol quote dict). -/
structure QuoteData where
  price : ℚ
  price_change_24h : ℚ
  volume : ℚ
  last_updated : ℚ
  source : String
deriving DecidableEq

/-- The RSI-risk step of `calculate_risk_score` (starting from
`risk_score = 5`). -/
def risk_rsi_add (rsi : ℚ) : ℤ :=
  if rsi > 80 ∨ rsi < 20 then 5 + 3
  else if rsi > 70 ∨ rsi < 30 then 5 + 1
  else 5

/-- The volatility-risk step of `calculate_risk_score`. -/
def risk_vol_add (volatility : ℚ) (r : ℤ) : ℤ :=
  if volatility > 0.1 then r + 2
  else if volatility > 0.05 then r + 1
  else r

/-- The additive part of `calculate_risk_score` before the `[1, 10]` clamp.
(The source also reads `market_data['price_change_24h']` into a local that
is never used afterwards; `market_data` is kept in the signature.) -/
def risk_raw (indicators : Indicators) (market_data : QuoteData) : ℤ :=
  risk_vol_add indicators.volatility (risk_rsi_add indicators.rsi)

/-- Model of `calculate_risk_score(self, indicators, market_data)`:
additive score clamped with `min(10, max(1, risk_score))`. -/
def calculate_risk_score (indicators : Indicators) (market_data : QuoteData) : ℤ :=
  min 10 (max 1 (risk_raw indicators market_data))

/-- Model of `calculate_position_size(self, risk_score, confidence)`. -/
def calculate_position_size (risk_score : ℤ) (confidence : ℚ) : String :=
  let base_size : ℚ := 1000
  let risk_multiplier : ℚ := 1 - (risk_score : ℚ) / 20
  let position_size := base_size * risk_multiplier * confidence
  if position_size < 200 then "Small (≤$200)"
  else if position_size < 600 then "Medium ($200-$600)"
  else "Large ($600-$1000)"

/-- Test `starts_with n h` : `n` is a leading segment of `h`. -/
def starts_with : List Char → List Char → Bool
  | [], _ => true
  | _ :: _, [] => false
  | c :: cs, d :: ds => c = d && starts_with cs ds

/-- Test `sub_scan n h` : `n` occurs contiguously somewhere in `h`. -/
def sub_scan (needle : List Char) : List Char → Bool
  | [] => needle.isEmpty
  | d :: ds => starts_with needle (d :: ds) || sub_scan needle ds

/-- Python's `needle in haystack` substring test on strings. -/
def contains_sub (needle hay : String) : Bool :=
  sub_scan needle.toList hay.toList

/-- The (take-profit, stop-loss) multipliers step of `calculate_targets`:
branch selected by Python's substring test `"STRONG BUY" in signal`, etc. -/
def targets_base (current_price : ℚ) (signal : String) : ℚ × ℚ :=
  if contains_sub "STRONG BUY" signal then (current_price * 1.15, current_price * 0.88)
  else if contains_sub "BUY" signal then (current_price * 1.10, current_price * 0.92)
  else if contains_sub "STRONG SELL" signal then (current_price * 0.85, current_price * 1.12)
  else if contains_sub "SELL" signal then (current_price * 0.90, current_price * 1.08)
  else (current_price * 1.05, current_price * 0.95)

/-- The take-profit / stop-loss levels computed inside `calculate_targets`
(before the 3-decimal output rounding): class multipliers, then the risk
adjustment `1 - risk_score * 0.005` applied to the take-profit only. -/
def targets_raw (current_price : ℚ) (signal : String) (risk_score : ℤ) : ℚ × ℚ :=
  ((targets_base current_price signal).1 * (1 - (risk_score : ℚ) * 0.005),
   (targets_base current_price signal).2)

/-- Targets record returned by `calculate_targets`. -/
structure Targets where
  take_profit : ℚ
  stop_loss : ℚ
  risk_reward_ratio : ℚ
deriving DecidableEq

/-- Model of `calculate_targets(self, current_price, signal, risk_score)`: the
risk/reward ratio is `|take_profit - price| / |price - stop_loss|` rounded
to 2 decimals when the (absolute) denominator is positive, else `1.0`; the
two monetary outputs are rounded to 3 decimals. -/
def calculate_targets (current_price : ℚ) (signal : String) (risk_score : ℤ) : Targets :=
  { take_profit := roundTo 3 (targets_raw current_price signal risk_score).1
    stop_loss := roundTo 3 (targets_raw current_price signal risk_score).2
    risk_reward_ratio :=
      if |current_price - (targets_raw current_price signal risk_score).2| > 0
      then roundTo 2 (|(targets_raw current_price signal risk_score).1 - current_price|
        / |current_price - (targets_raw current_price signal risk_score).2|)
      else 1.0 }

/-- A family of independent random sources, one per symbol (used where the
Python code makes one fresh `np.random.uniform` pair per symbol in a loop). -/
def UnifFamBounds (unifs : String → ℚ → ℚ → ℚ) : Prop :=
  ∀ s : String, UnifBounds (unifs s)

/-- The tracked asset list `self.coins`. -/
def coins : List String :=
  ["BTC", "ETH", "ADA", "SOL", "DOT", "MATIC", "BNB", "XRP", "DOGE", "AVAX"]

/-- The fixed fallback base-price table (duplicated verbatim in
`_get_all_fallback_data`, `_get_fallback_data` and `_get_default_signal`). -/
def fallback_prices : List (String × ℚ) :=
  [("BTC", 43450), ("ETH", 2350), ("ADA", 0.48), ("SOL", 102),
   ("DOT", 6.85), ("MATIC", 0.78), ("BNB", 315), ("XRP", 0.57),
   ("DOGE", 0.085), ("AVAX", 36.5)]

/-- The dict lookup `fallback_prices.get(symbol, 100)`. -/
def fallback_price (symbol : String) : ℚ :=
  if symbol = "BTC" then 43450
  else if symbol = "ETH" then 2350
  else if symbol = "ADA" then 0.48
  else if symbol = "SOL" then 102
  else if symbol = "DOT" then 6.85
  else if symbol = "MATIC" then 0.78
  else if symbol = "BNB" then 315
  else if symbol = "XRP" then 0.57
  else if symbol = "DOGE" then 0.085
  else if symbol = "AVAX" then 36.5
  else 100

/-- Model of `_get_fallback_data(self, symbol)`: a single synthetic quote.  `now` is
the call-time clock value used for `last_updated`. -/
def get_fallback_data (symbol : String) (unif : ℚ → ℚ → ℚ) (now : ℚ) : QuoteData :=
  let price : ℚ := fallback_price symbol
  let varied_price := price * (1 + unif (-0.02) 0.02)
  { price := varied_price
    price_change_24h := unif (-5) 5
    volume := 0
    last_updated := now
    source := "fallback" }

/-- Model of `_get_all_fallback_data(self)`: one synthetic quote per table entry, each
with its own independent draws (dict built in table order). -/
def get_all_fallback_data (unifs : String → ℚ → ℚ → ℚ) (now : ℚ) :
    List (String × QuoteData) :=
  fallback_prices.map fun sp =>
    (sp.1,
      { price := sp.2 * (1 + unifs sp.1 (-0.02) 0.02)
        price_change_24h := unifs sp.1 (-5) 5
        volume := 0
        last_updated := now
        source := "fallback" })

/-- One entry of the CoinGecko `simple/price` JSON response (missing JSON
fields are modelled as the `coin_data.get(..., 0)` defaults already applied). -/
structure ApiCoinData where
  usd : ℚ
  usd_24h_change : ℚ
  usd_24h_vol : ℚ
  last_updated_at : ℚ
deriving DecidableEq

/-- The `coin_mapping` dict from CoinGecko ids to tracked symbols. -/
def coin_mapping : List (String × String) :=
  [("bitcoin", "BTC"), ("ethereum", "ETH"), ("cardano", "ADA"),
   ("solana", "SOL"), ("polkadot", "DOT"), ("matic-network", "MATIC"),
   ("binancecoin", "BNB"), ("ripple", "XRP"), ("dogecoin", "DOGE"),
   ("avalanche-2", "AVAX")]

/-- The loop `for coin_id, coin_data in data.items(): ...` building `result`
from a 200 response. -/
def map_api_response (data : List (String × ApiCoinData)) : List (String × QuoteData) :=
  data.filterMap fun cd =>
    match coin_mapping.lookup cd.1 with
    | some symbol =>
        some (symbol,
          { price := cd.2.usd
            price_change_24h := cd.2.usd_24h_change
            volume := cd.2.usd_24h_vol
            last_updated := cd.2.last_updated_at
            source := "coingecko" })
    | none => none

/-- The loop `for symbol in self.coins: if symbol not in result: ...` that
fills missing tracked symbols with individual fallback quotes. -/
def fill_missing (unifs : String → ℚ → ℚ → ℚ) (now : ℚ)
    (result : List (String × QuoteData)) : List (String × QuoteData) :=
  result ++
    (coins.filter fun s => (result.lookup s).isNone).map
      (fun s => (s, get_fallback_data s (unifs s) now))

/-- The cache dict `self.data_cache`: at most one entry, keyed `"all_prices"`,
holding the batch and its insertion timestamp. -/
structure CacheState where
  entry : Option (List (String × QuoteData) × ℚ)
deriving DecidableEq

/-- Outcome of the `requests.get` call: a decoded 200 response, or any
failure (non-200 status code, timeout, exception). -/
inductive FetchResult where
  | ok (data : List (String × ApiCoinData))
  | err
deriving DecidableEq

/-- Model of `(datetime.now() - timestamp).seconds`: the seconds *component* of the
timedelta, i.e. `⌊elapsed⌋ mod 86400` — NOT the total elapsed seconds. -/
def td_seconds (elapsed : ℚ) : ℤ := qfloor elapsed % 86400

/-- The freshness check `(datetime.now() - timestamp).seconds < self.cache_duration`
with `cache_duration = 30`. -/
def cache_entry_fresh (elapsed : ℚ) : Bool := td_seconds elapsed < 30

/-- The fetch-and-store phase of `get_all_prices` (runs only on cache miss):
on a 200 response, map symbols, fill missing ones with fallback quotes and
store the batch with the current timestamp; on failure return the full
fallback batch *without* storing it. -/
def fetch_and_store (st : CacheState) (now : ℚ) (fetch : FetchResult)
    (unifs : String → ℚ → ℚ → ℚ) :
    List (String × QuoteData) × CacheState :=
  match fetch with
  | .ok data =>
      let result := fill_missing unifs now (map_api_response data)
      (result, { entry := some (result, now) })
  | .err => (get_all_fallback_data unifs now, st)

/-- Model of `get_all_prices(self)`: return the cached batch if an entry exists and is
fresh; otherwise delete the entry (if any) and run the fetch-and-store phase. -/
def get_all_prices (st : CacheState) (now : ℚ) (fetch : FetchResult)
    (unifs : String → ℚ → ℚ → ℚ) :
    List (String × QuoteData) × CacheState :=
  match st.entry with
  | some (cached_data, timestamp) =>
      if cache_entry_fresh (now - timestamp) then (cached_data, st)
      else fetch_and_store { entry := none } now fetch unifs
  | none => fetch_and_store st now fetch unifs

/-- Model of `force_refresh_all_data(self)`: clear the cache unconditionally. -/
def force_refresh_all_data (st : CacheState) : CacheState := { entry := none }

/-- Full per-symbol output record of `generate_trading_signals` (the
`timestamp` dict entry, a `float`-or-`str` union in Python, is omitted). -/
structure SignalRecord where
  symbol : String
  price : ℚ
  price_change_24h : ℚ
  signal : String
  confidence : ℚ
  risk_score : ℤ
  position_size : String
  targets : Targets
  indicators : Indicators
  source : String
  fallback : Bool
deriving DecidableEq

/-- Model of `_get_default_signal(self, symbol)`: the fixed neutral record returned
when signal generation raises. -/
def get_default_signal (symbol : String) : SignalRecord :=
  let price : ℚ := fallback_price symbol
  { symbol := symbol
    price := price
    price_change_24h := 0
    signal := "HOLD"
    confidence := 0.5
    risk_score := 5
    position_size := "Medium ($200-$600)"
    targets :=
      { take_profit := roundTo 3 (price * 1.05)
        stop_loss := roundTo 3 (price * 0.95)
        risk_reward_ratio := 1.0 }
    indicators :=
      { rsi := 50.0, macd := 0.0, macd_signal := 0.0, trend := "neutral"
        volatility := 0.02, momentum := 0.0 }
    source := "fallback"
    fallback := true }

/-- The body of the `try:` block of `generate_trading_signals`, given the
per-symbol market data already looked up and the process hash of the symbol. -/
def assemble_signal (symbol : String) (symbol_hash : ℕ) (market_data : QuoteData)
    (unif : ℚ → ℚ → ℚ) : SignalRecord :=
  let current_price := market_data.price
  let price_change_24h := market_data.price_change_24h
  let indicators := generate_indicators unif symbol_hash current_price price_change_24h
  let risk_score := calculate_risk_score indicators market_data
  let sig := generate_signal unif indicators risk_score price_change_24h
  { symbol := symbol
    price := current_price
    price_change_24h := price_change_24h
    signal := sig.1
    confidence := sig.2
    risk_score := risk_score
    position_size := calculate_position_size risk_score sig.2
    targets := calculate_targets current_price sig.1 risk_score
    indicators := indicators
    source := market_data.source
    fallback := market_data.source = "fallback" }

/-- Model of `generate_trading_signals(self, symbol)`: the `try/except` wrapper.  The
body either completes with a record (`Except.ok`) or raises (`Except.error`);
in the latter case the fixed default record is returned, so the function is
total and never propagates an exception. -/
def generate_trading_signals (body : Except Unit SignalRecord)
    (symbol : String) : SignalRecord :=
  match body with
  | .ok r => r
  | .error _ => get_default_signal symbol

/-- A concrete legal random source: always returns the lower bound. -/
def demo_unif : ℚ → ℚ → ℚ := fun lo _ => lo

/-- A concrete legal random-source family: always the lower bound. -/
def demo_unifs : String → ℚ → ℚ → ℚ := fun _ lo _ => lo

/-- A concrete legal random-source family: always the midpoint. -/
def demo_unifs_mid : String → ℚ → ℚ → ℚ := fun _ lo hi => (lo + hi) / 2

/-- A concrete quote and one-entry cached batch used in counterexamples. -/
def demo_quote : QuoteData :=
  { price := 1, price_change_24h := 0, volume := 0, last_updated := 0,
    source := "coingecko" }

def demo_batch : List (String × QuoteData) := [("BTC", demo_quote)]

theorem demo_unif_bounds : UnifBounds demo_unif := by
  intro lo hi h; exact ⟨le_refl lo, h⟩

theorem demo_unifs_bounds : UnifFamBounds demo_unifs := by
  intro s lo hi h; exact ⟨le_refl lo, h⟩

theorem demo_unifs_mid_bounds : UnifFamBounds demo_unifs_mid := by
  intro s lo hi h
  constructor
  · show lo ≤ (lo + hi) / 2
    linarith
  · show (lo + hi) / 2 ≤ hi
    linarith

theorem qfloor_le_self (y : ℚ) : (qfloor y : ℚ) ≤ y := by
  rw [qfloor_eq]; exact Int.floor_le y

theorem le_qfloor {a : ℤ} {y : ℚ} (h : (a : ℚ) ≤ y) : a ≤ qfloor y := by
  rw [qfloor_eq]; exact Int.le_floor.mpr h

theorem qfloor_le {y : ℚ} {b : ℤ} (h : y ≤ (b : ℚ)) : qfloor y ≤ b := by
  rw [qfloor_eq]
  exact le_trans (Int.floor_mono h) (le_of_eq (Int.floor_intCast b))

theorem rnd_ge_floor (y : ℚ) : qfloor y ≤ rnd y := by
  unfold rnd; split_ifs <;> omega

theorem le_rnd {a : ℤ} {y : ℚ} (h : (a : ℚ) ≤ y) : a ≤ rnd y :=
  le_trans (le_qfloor h) (rnd_ge_floor y)

theorem rnd_le {y : ℚ} {b : ℤ} (h : y ≤ (b : ℚ)) : rnd y ≤ b := by
  have hfb : qfloor y ≤ b := qfloor_le h
  have hfl : (qfloor y : ℚ) ≤ y := qfloor_le_self y
  unfold rnd
  split_ifs with h1 h2 h3
  · exact hfb
  · by_contra hc
    push_neg at hc
    have hqb : qfloor y = b := by omega
    rw [hqb] at h2
    linarith
  · exact hfb
  · by_contra hc
    push_neg at hc
    have hqb : qfloor y = b := by omega
    rw [hqb] at h1
    push_neg at h1
    linarith

theorem le_roundTo {n : ℕ} {a : ℤ} {y : ℚ} (h : (a : ℚ) / 10 ^ n ≤ y) :
    (a : ℚ) / 10 ^ n ≤ roundTo n y := by
  unfold roundTo
  have hpow : (0 : ℚ) < 10 ^ n := by positivity
  have h1 : (a : ℚ) ≤ y * 10 ^ n := (div_le_iff hpow).mp h
  have h2 : a ≤ rnd (y * 10 ^ n) := le_rnd h1
  exact (div_le_div_right hpow).mpr (by exact_mod_cast h2)

theorem roundTo_le {n : ℕ} {y : ℚ} {b : ℤ} (h : y ≤ (b : ℚ) / 10 ^ n) :
    roundTo n y ≤ (b : ℚ) / 10 ^ n := by
  unfold roundTo
  have hpow : (0 : ℚ) < 10 ^ n := by positivity
  have h1 : y * 10 ^ n ≤ (b : ℚ) := (le_div_iff hpow).mp h
  have h2 : rnd (y * 10 ^ n) ≤ b := rnd_le h1
  exact (div_le_div_right hpow).mpr (by exact_mod_cast h2)

theorem cache_fresh_of_lt {e : ℚ} (h0 : 0 ≤ e) (h30 : e < 30) :
    cache_entry_fresh e = true := by
  unfold cache_entry_fresh td_seconds
  have hf0 : 0 ≤ qfloor e := le_qfloor (by exact_mod_cast h0)
  have hf30 : qfloor e < 30 := by
    rw [qfloor_eq]; exact Int.floor_lt.mpr (by exact_mod_cast h30)
  have hm : qfloor e % 86400 = qfloor e := Int.emod_eq_of_lt hf0 (by omega)
  rw [hm]
  exact decide_eq_true hf30

theorem confidence_pre_bounds (rsi : ℚ) :
    0.6 ≤ confidence_pre rsi ∧ confidence_pre rsi ≤ 0.85 := by
  unfold confidence_pre
  split_ifs <;> norm_num

theorem classify_conf_bounds {cf : ℚ} (h1 : 0.6 ≤ cf) (h2 : cf ≤ 0.85) (sc : ℚ) :
    0.5 ≤ (classify_signal sc cf).2 ∧ (classify_signal sc cf).2 ≤ 0.95 := by
  unfold classify_signal
  split_ifs
  · exact ⟨le_min (by norm_num) (by linarith), min_le_left _ _⟩
  · exact ⟨le_min (by norm_num) (by linarith), (min_le_left _ _).trans (by norm_num)⟩
  · exact ⟨le_min (by norm_num) (by linarith), min_le_left _ _⟩
  · exact ⟨le_min (by norm_num) (by linarith), (min_le_left _ _).trans (by norm_num)⟩
  · exact ⟨le_max_left _ _, max_le (by norm_num) (by linarith)⟩

theorem roundTo2_mem_05_095 {v : ℚ} (h1 : 0.5 ≤ v) (h2 : v ≤ 0.95) :
    0.5 ≤ roundTo 2 v ∧ roundTo 2 v ≤ 0.95 := by
  have e1 : ((50 : ℤ) : ℚ) / 10 ^ 2 = 0.5 := by norm_num
  have e2 : ((95 : ℤ) : ℚ) / 10 ^ 2 = 0.95 := by norm_num
  constructor
  · rw [← e1]
    exact le_roundTo (by rw [e1]; exact h1)
  · rw [← e2]
    exact roundTo_le (by rw [e2]; exact h2)

/-- C1: the spec says a cached batch is returned only while strictly less
than `TTL = 30` seconds old, and that any `get` at `insertedAt + TTL + ε`
re-fetches.  The code tests `(now - insertedAt).seconds < 30`, the seconds
*component* of the timedelta, which wraps every 86400 seconds: with
`ε = 86375` (one day plus five seconds after insertion) the component is
`5 < 30`, the entry counts as fresh, and the stale cached batch is returned
with no fetch — contradicting the spec'd TTL contract. -/
theorem C1_ttl_expiry_code_bug :
    (0 : ℚ) < 86375 ∧
    cache_entry_fresh (30 + 86375) = true ∧
    get_all_prices ⟨some (demo_batch, 0)⟩ (30 + 86375) FetchResult.err demo_unifs
      = (demo_batch, ⟨some (demo_batch, 0)⟩) :=
  ⟨by norm_num, by decide, by decide⟩

/-- C4: `generate_trading_signals` wraps its whole body in `try/except`; when
the body raises, the fixed neutral default record is returned: signal HOLD,
confidence 0.5, risk score 5, `fallback = true`, RSI 50.  The function is
total — no exception reaches its caller. -/
theorem C4_pipeline_errors_absorbed (symbol : String) (e : Unit) :
    generate_trading_signals (Except.error e) symbol = get_default_signal symbol ∧
    (get_default_signal symbol).signal = "HOLD" ∧
    (get_default_signal symbol).confidence = 0.5 ∧
    (get_default_signal symbol).risk_score = 5 ∧
    (get_default_signal symbol).fallback = true ∧
    (get_default_signal symbol).indicators.rsi = 50 :=
  ⟨rfl, rfl, rfl, rfl, rfl, rfl⟩

/-- C10: for every random source, indicator bundle, risk score and 24h
change, the confidence reported by `generate_signal` lies in `[0.5, 0.95]`:
the pre-classification confidence starts at 0.6 and is only increased (to at
most 0.85), the HOLD branch clamps below at 0.5, the BUY/SELL branches cap
at 0.85, the STRONG branches cap at 0.95, and 2-decimal rounding preserves
the interval. -/
theorem C10_confidence_in_range (unif : ℚ → ℚ → ℚ) (ind : Indicators)
    (risk_score : ℤ) (price_change_24h : ℚ) :
    0.5 ≤ (generate_signal unif ind risk_score price_change_24h).2 ∧
    (generate_signal unif ind risk_score price_change_24h).2 ≤ 0.95 := by
  have h := confidence_pre_bounds ind.rsi
  have h2 := classify_conf_bounds h.1 h.2
    (dampen_score risk_score
      (momentum_score price_change_24h
        (trend_score ind.trend (rsi_score ind.rsi)) + unif (-1) 1))
  exact roundTo2_mem_05_095 h2.1 h2.2

theorem get_all_prices_hit (st : CacheState) (b : List (String × QuoteData))
    (ts now : ℚ) (h : st.entry = some (b, ts))
    (hfresh : cache_entry_fresh (now - ts) = true)
    (fetch : FetchResult) (unifs : String → ℚ → ℚ → ℚ) :
    get_all_prices st now fetch unifs = (b, st) := by
  rcases st with ⟨entry⟩
  simp only at h
  subst h
  unfold get_all_prices
  simp [hfresh]

/-- C2 counterexample: two `get` calls 5 seconds apart with no invalidate in
between, both with failing fetches: the first call's fallback batch is not
cached, so the second call synthesizes a fresh batch with new draws and the
two batches are not identical (both random sources are within-bounds). -/
theorem C2_counterexample_failed_fetch_not_cached :
    UnifFamBounds demo_unifs ∧ UnifFamBounds demo_unifs_mid ∧
    ((5 : ℚ) - 0 < 30) ∧
    (get_all_prices ((get_all_prices ⟨none⟩ 0 FetchResult.err demo_unifs).2) 5
        FetchResult.err demo_unifs_mid).1
      ≠ (get_all_prices ⟨none⟩ 0 FetchResult.err demo_unifs).1 ∧
    ((get_all_prices ((get_all_prices ⟨none⟩ 0 FetchResult.err demo_unifs).2) 5
        FetchResult.err demo_unifs_mid).1.map fun x => (x.1, x.2.price))
      ≠ ((get_all_prices ⟨none⟩ 0 FetchResult.err demo_unifs).1.map
          fun x => (x.1, x.2.price)) :=
  ⟨demo_unifs_bounds, demo_unifs_mid_bounds, by norm_num, by decide, by decide⟩

/-- C2 (amended): two `get` calls less than 30 seconds apart with no
invalidate in between return the identical batch, *provided the first call
stored its (successfully fetched) batch in the cache at its own call time*;
the second call reads it back unchanged regardless of its fetch outcome or
random source (no new randomness is introduced). -/
theorem C2_amended_cached_batch_reused (st : CacheState) (now1 now2 : ℚ)
    (data : List (String × ApiCoinData)) (u1 u2 : String → ℚ → ℚ → ℚ)
    (f2 : FetchResult)
    (h1 : now1 ≤ now2) (h2 : now2 - now1 < 30)
    (hstore : (get_all_prices st now1 (FetchResult.ok data) u1).2.entry =
      some ((get_all_prices st now1 (FetchResult.ok data) u1).1, now1)) :
    get_all_prices (get_all_prices st now1 (FetchResult.ok data) u1).2 now2 f2 u2
      = ((get_all_prices st now1 (FetchResult.ok data) u1).1,
         (get_all_prices st now1 (FetchResult.ok data) u1).2) :=
  get_all_prices_hit _ _ _ _ hstore
    (cache_fresh_of_lt (by linarith) h2) f2 u2

theorem C2_amended_witness :
    get_all_prices (get_all_prices ⟨none⟩ 0 (FetchResult.ok []) demo_unifs).2 5
        FetchResult.err demo_unifs
      = ((get_all_prices ⟨none⟩ 0 (FetchResult.ok []) demo_unifs).1,
         (get_all_prices ⟨none⟩ 0 (FetchResult.ok []) demo_unifs).2) :=
  C2_amended_cached_batch_reused ⟨none⟩ 0 5 [] demo_unifs demo_unifs
    FetchResult.err (by norm_num) (by norm_num) (by decide)

/-- A `get` call that does not find a fresh cache entry. -/
def cache_miss (st : CacheState) (now : ℚ) : Prop :=
  ∀ b ts, st.entry = some (b, ts) → cache_entry_fresh (now - ts) = false

/-- C3 counterexample: a failing fetch does not leave the cache state
literally unchanged — a stale entry present at call time is deleted during
the freshness check, so the post-call state differs from the pre-call state. -/
theorem C3_counterexample_stale_entry_deleted :
    cache_entry_fresh ((40 : ℚ) - 0) = false ∧
    (get_all_prices ⟨some (demo_batch, 0)⟩ 40 FetchResult.err demo_unifs).2
      ≠ ⟨some (demo_batch, 0)⟩ :=
  ⟨by decide, by decide⟩

/-- C3 (amended): whenever the fetch fails on a cache miss, `get_all_prices`
returns the batch synthesized by `_get_all_fallback_data` — every entry has
`source = "fallback"` and every one of the ten tracked symbols is present —
and the failed batch is never stored: after the call the cache holds no entry
(a stale pre-existing entry was already deleted during the check), so the
next `get` call runs the fetch-and-store phase (attempts the live fetch)
again. -/
theorem C3_amended_failed_fetch_full_fallback (st : CacheState) (now : ℚ)
    (unifs : String → ℚ → ℚ → ℚ) (h : cache_miss st now) :
    (get_all_prices st now FetchResult.err unifs).1
      = get_all_fallback_data unifs now ∧
    (∀ s q, (s, q) ∈ (get_all_prices st now FetchResult.err unifs).1 →
      q.source = "fallback") ∧
    (∀ s, s ∈ coins →
      (((get_all_prices st now FetchResult.err unifs).1).lookup s).isSome = true) ∧
    (get_all_prices st now FetchResult.err unifs).2.entry = none ∧
    (∀ now2 f2 u2,
      get_all_prices (get_all_prices st now FetchResult.err unifs).2 now2 f2 u2
        = fetch_and_store (get_all_prices st now FetchResult.err unifs).2 now2 f2 u2)
    := by
  have hmain : get_all_prices st now FetchResult.err unifs
      = (get_all_fallback_data unifs now, ⟨none⟩) := by
    rcases st with ⟨entry⟩
    match entry with
    | none => rfl
    | some (b, ts) =>
      have hst := h b ts rfl
      unfold get_all_prices
      simp [hst]
      rfl
  rw [hmain]
  refine ⟨rfl, ?_, ?_, rfl, ?_⟩
  · intro s q hq
    simp only [get_all_fallback_data, List.mem_map] at hq
    rcases hq with ⟨sp, _, heq⟩
    cases heq
    rfl
  · intro s hs
    fin_cases hs <;> simp [get_all_fallback_data, fallback_prices, List.lookup]
  · intro now2 f2 u2
    rfl

theorem C3_amended_witness :
    (get_all_prices ⟨none⟩ 0 FetchResult.err demo_unifs).1
      = get_all_fallback_data demo_unifs 0 :=
  (C3_amended_failed_fetch_full_fallback ⟨none⟩ 0 demo_unifs
    (fun _ _ h => Option.noConfusion h)).1

theorem base_rsi_mem {unif : ℚ → ℚ → ℚ} (hu : UnifBounds unif) (chg : ℚ) :
    20 ≤ (base_rsi_trend unif chg).1 ∧ (base_rsi_trend unif chg).1 ≤ 80 := by
  unfold base_rsi_trend
  split_ifs <;> try dsimp only
  · obtain ⟨ha, hb⟩ := hu 65 80 (by norm_num); exact ⟨by linarith, by linarith⟩
  · obtain ⟨ha, hb⟩ := hu 20 35 (by norm_num); exact ⟨by linarith, by linarith⟩
  · obtain ⟨ha, hb⟩ := hu 55 70 (by norm_num); exact ⟨by linarith, by linarith⟩
  · obtain ⟨ha, hb⟩ := hu 30 45 (by norm_num); exact ⟨by linarith, by linarith⟩
  · obtain ⟨ha, hb⟩ := hu 40 60 (by norm_num); exact ⟨by linarith, by linarith⟩

theorem bias_rsi_mem (sh : ℕ) {bt : ℚ × String}
    (h1 : 20 ≤ bt.1) (h2 : bt.1 ≤ 80) :
    20 ≤ (bias_rsi_trend sh bt).1 ∧ (bias_rsi_trend sh bt).1 ≤ 80 := by
  unfold bias_rsi_trend
  split_ifs <;> try dsimp only
  · exact ⟨le_max_left _ _, max_le (by norm_num) (by linarith)⟩
  · exact ⟨le_min (by norm_num) (by linarith), min_le_left _ _⟩
  · exact ⟨h1, h2⟩

theorem roundTo1_mem_20_80 {v : ℚ} (h1 : 20 ≤ v) (h2 : v ≤ 80) :
    20 ≤ roundTo 1 v ∧ roundTo 1 v ≤ 80 := by
  have e1 : ((200 : ℤ) : ℚ) / 10 ^ 1 = 20 := by norm_num
  have e2 : ((800 : ℤ) : ℚ) / 10 ^ 1 = 80 := by norm_num
  constructor
  · rw [← e1]; exact le_roundTo (by rw [e1]; exact h1)
  · rw [← e2]; exact roundTo_le (by rw [e2]; exact h2)

theorem generate_indicators_rsi_mem {unif : ℚ → ℚ → ℚ} (hu : UnifBounds unif)
    (sh : ℕ) (price chg : ℚ) :
    20 ≤ (generate_indicators unif sh price chg).rsi ∧
    (generate_indicators unif sh price chg).rsi ≤ 80 := by
  have h1 := base_rsi_mem hu chg
  have h2 := bias_rsi_mem sh h1.1 h1.2
  have heq : (generate_indicators unif sh price chg).rsi
      = roundTo 1 (bias_rsi_trend sh (base_rsi_trend unif chg)).1 := rfl
  rw [heq]
  exact roundTo1_mem_20_80 h2.1 h2.2

theorem risk_rsi_add_mem {rsi : ℚ} (h1 : 20 ≤ rsi) (h2 : rsi ≤ 80) :
    5 ≤ risk_rsi_add rsi ∧ risk_rsi_add rsi ≤ 6 := by
  unfold risk_rsi_add
  split_ifs with ha hb
  · rcases ha with ha | ha <;> linarith
  · exact ⟨by omega, by omega⟩
  · exact ⟨by omega, by omega⟩

theorem risk_vol_add_mem (vol : ℚ) {r : ℤ} (h1 : 5 ≤ r) (h2 : r ≤ 6) :
    5 ≤ risk_vol_add vol r ∧ risk_vol_add vol r ≤ 8 := by
  unfold risk_vol_add
  split_ifs <;> exact ⟨by omega, by omega⟩

/-- C9: for any within-bounds random source, the RSI produced by
`generate_indicators` always lies in `[20, 80]` (bucket ranges, hash bias
floor/cap, and 1-decimal rounding all preserve it); consequently in
`calculate_risk_score` the `+3` extreme-oscillator branch (`rsi > 80` or
`rsi < 20`) never fires, neither clamp of `min(10, max(1, ·))` binds, and
the resulting risk score lies in `[5, 8]`. -/
theorem C9_rsi_bounds_risk_5_to_8 (unif : ℚ → ℚ → ℚ) (hu : UnifBounds unif)
    (symbol_hash : ℕ) (price chg : ℚ) (md : QuoteData) :
    (20 ≤ (generate_indicators unif symbol_hash price chg).rsi ∧
     (generate_indicators unif symbol_hash price chg).rsi ≤ 80) ∧
    ¬((generate_indicators unif symbol_hash price chg).rsi > 80 ∨
      (generate_indicators unif symbol_hash price chg).rsi < 20) ∧
    calculate_risk_score (generate_indicators unif symbol_hash price chg) md
      = risk_raw (generate_indicators unif symbol_hash price chg) md ∧
    5 ≤ calculate_risk_score (generate_indicators unif symbol_hash price chg) md ∧
    calculate_risk_score (generate_indicators unif symbol_hash price chg) md ≤ 8
    := by
  obtain ⟨hr1, hr2⟩ := generate_indicators_rsi_mem hu symbol_hash price chg
  have ha := risk_rsi_add_mem hr1 hr2
  have hraw := risk_vol_add_mem (generate_indicators unif symbol_hash price chg).volatility
    ha.1 ha.2
  have hraw' : 5 ≤ risk_raw (generate_indicators unif symbol_hash price chg) md ∧
      risk_raw (generate_indicators unif symbol_hash price chg) md ≤ 8 := hraw
  have heq : calculate_risk_score (generate_indicators unif symbol_hash price chg) md
      = risk_raw (generate_indicators unif symbol_hash price chg) md := by
    unfold calculate_risk_score
    omega
  refine ⟨⟨hr1, hr2⟩, ?_, heq, ?_, ?_⟩
  · rintro (h | h) <;> linarith
  · omega
  · omega

theorem C9_witness :
    5 ≤ calculate_risk_score (generate_indicators demo_unif 50 43450 9) demo_quote ∧
    calculate_risk_score (generate_indicators demo_unif 50 43450 9) demo_quote ≤ 8 :=
  ⟨(C9_rsi_bounds_risk_5_to_8 demo_unif demo_unif_bounds 50 43450 9 demo_quote).2.2.2.1,
   (C9_rsi_bounds_risk_5_to_8 demo_unif demo_unif_bounds 50 43450 9 demo_quote).2.2.2.2⟩

/-- A concrete legal random source that draws 78 from `uniform(65, 80)` and
the lower bound from every other interval. -/
def u65 : ℚ → ℚ → ℚ := fun lo hi => if lo = 65 ∧ hi = 80 then 78 else lo

theorem u65_bounds : UnifBounds u65 := by
  intro lo hi h
  unfold u65
  split_ifs with hc
  · obtain ⟨h1, h2⟩ := hc
    subst h1; subst h2
    norm_num
  · exact ⟨le_refl lo, h⟩

/-- A concrete quote matching the C5 scenario (price 43450, +9% 24h). -/
def demo_quote9 : QuoteData :=
  { price := 43450, price_change_24h := 9, volume := 0, last_updated := 0,
    source := "coingecko" }

theorem classify_no_buy {sc : ℚ} (cf : ℚ) (h : sc < 1.5) :
    (classify_signal sc cf).1 = "HOLD" ∨ (classify_signal sc cf).1 = "SELL" ∨
    (classify_signal sc cf).1 = "STRONG SELL" := by
  unfold classify_signal
  split_ifs with h1 h2 h3 h4
  · exact absurd h1 (by linarith)
  · exact absurd h2 (by linarith)
  · exact Or.inr (Or.inr rfl)
  · exact Or.inr (Or.inl rfl)
  · exact Or.inl rfl

/-- C5 counterexample: hash 50 (no bias), change24h = +9, base-RSI draw 78
(legal in `[65, 80]`) and noise draw −1 (legal in `[-1, 1]`): the RSI branch
contributes −3, trend +1, momentum −1, noise −1, risk dampening ×0.8, final
score −3.2 — classified STRONG SELL, refuting the claim that the class is
always one of STRONG BUY / BUY / HOLD. -/
theorem C5_counterexample_strong_sell :
    UnifBounds u65 ∧ ((20:ℕ) ≤ 50 ∧ (50:ℕ) ≤ 80) ∧
    (generate_signal u65 (generate_indicators u65 50 43450 9)
        (calculate_risk_score (generate_indicators u65 50 43450 9) demo_quote9) 9).1
      = "STRONG SELL" :=
  ⟨u65_bounds, by norm_num, by decide⟩

/-- C5 (amended): with no hash bias (`hash(symbol) mod 100 ∈ [20, 80]`) and
`change24h = +9` (the `> 8` bucket), the derived RSI lies in `[65, 80]` and
the trend is bullish; for every within-bounds random draw the resulting
class is one of HOLD, SELL, STRONG SELL — never BUY or STRONG BUY (the RSI
bucket contributes −2 or −3 for rsi > 65 and 0 at rsi = 65, trend +1,
momentum −1, noise at most +1, so the dampened score stays below 1.5). -/
theorem C5_amended_no_buy_class (unif : ℚ → ℚ → ℚ) (hu : UnifBounds unif)
    (symbol_hash : ℕ) (h20 : 20 ≤ symbol_hash) (h80 : symbol_hash ≤ 80)
    (price : ℚ) (md : QuoteData) :
    (65 ≤ (generate_indicators unif symbol_hash price 9).rsi ∧
     (generate_indicators unif symbol_hash price 9).rsi ≤ 80) ∧
    (generate_indicators unif symbol_hash price 9).trend = "bullish" ∧
    ((generate_signal unif (generate_indicators unif symbol_hash price 9)
        (calculate_risk_score (generate_indicators unif symbol_hash price 9) md) 9).1
        = "HOLD" ∨
     (generate_signal unif (generate_indicators unif symbol_hash price 9)
        (calculate_risk_score (generate_indicators unif symbol_hash price 9) md) 9).1
        = "SELL" ∨
     (generate_signal unif (generate_indicators unif symbol_hash price 9)
        (calculate_risk_score (generate_indicators unif symbol_hash price 9) md) 9).1
        = "STRONG SELL") := by
  have hbase : base_rsi_trend unif 9 = (unif 65 80, "bullish") := by
    unfold base_rsi_trend
    rw [if_pos (by norm_num : (9:ℚ) > 8)]
  have hbias : bias_rsi_trend symbol_hash (unif 65 80, "bullish")
      = (unif 65 80, "bullish") := by
    unfold bias_rsi_trend
    rw [if_neg (by omega), if_neg (by omega)]
  have hrsiEq : (generate_indicators unif symbol_hash price 9).rsi
      = roundTo 1 (unif 65 80) := by
    have h0 : (generate_indicators unif symbol_hash price 9).rsi
        = roundTo 1 (bias_rsi_trend symbol_hash (base_rsi_trend unif 9)).1 := rfl
    rw [h0, hbase, hbias]
  have htrend : (generate_indicators unif symbol_hash price 9).trend = "bullish" := by
    have h0 : (generate_indicators unif symbol_hash price 9).trend
        = (bias_rsi_trend symbol_hash (base_rsi_trend unif 9)).2 := rfl
    rw [h0, hbase, hbias]
  obtain ⟨hu1, hu2⟩ := hu 65 80 (by norm_num)
  have hrsi_lo : 65 ≤ (generate_indicators unif symbol_hash price 9).rsi := by
    rw [hrsiEq]
    have e : ((650 : ℤ) : ℚ) / 10 ^ 1 = 65 := by norm_num
    rw [← e]
    exact le_roundTo (by rw [e]; linarith)
  have hrsi_hi : (generate_indicators unif symbol_hash price 9).rsi ≤ 80 := by
    rw [hrsiEq]
    have e : ((800 : ℤ) : ℚ) / 10 ^ 1 = 80 := by norm_num
    rw [← e]
    exact roundTo_le (by rw [e]; linarith)
  have hsc1 : rsi_score (generate_indicators unif symbol_hash price 9).rsi ≤ 0 := by
    unfold rsi_score
    split_ifs <;> linarith
  have hsc2 : trend_score (generate_indicators unif symbol_hash price 9).trend
      (rsi_score (generate_indicators unif symbol_hash price 9).rsi) ≤ 1 := by
    rw [htrend]
    unfold trend_score
    rw [if_pos rfl]
    linarith
  have hsc3 : momentum_score 9
      (trend_score (generate_indicators unif symbol_hash price 9).trend
        (rsi_score (generate_indicators unif symbol_hash price 9).rsi)) ≤ 0 := by
    unfold momentum_score
    rw [if_neg (by norm_num), if_pos (by norm_num)]
    linarith
  obtain ⟨hn1, hn2⟩ := hu (-1) 1 (by norm_num)
  have hsc4 : momentum_score 9
      (trend_score (generate_indicators unif symbol_hash price 9).trend
        (rsi_score (generate_indicators unif symbol_hash price 9).rsi))
      + unif (-1) 1 ≤ 1 := by linarith
  have hdamp : dampen_score
      (calculate_risk_score (generate_indicators unif symbol_hash price 9) md)
      (momentum_score 9
        (trend_score (generate_indicators unif symbol_hash price 9).trend
          (rsi_score (generate_indicators unif symbol_hash price 9).rsi))
        + unif (-1) 1) < 1.5 := by
    unfold dampen_score
    split_ifs <;> linarith
  refine ⟨⟨hrsi_lo, hrsi_hi⟩, htrend, ?_⟩
  have hfst : (generate_signal unif (generate_indicators unif symbol_hash price 9)
      (calculate_risk_score (generate_indicators unif symbol_hash price 9) md) 9).1
      = (classify_signal
          (dampen_score
            (calculate_risk_score (generate_indicators unif symbol_hash price 9) md)
            (momentum_score 9
              (trend_score (generate_indicators unif symbol_hash price 9).trend
                (rsi_score (generate_indicators unif symbol_hash price 9).rsi))
              + unif (-1) 1))
          (confidence_pre (generate_indicators unif symbol_hash price 9).rsi)).1 := rfl
  rw [hfst]
  exact classify_no_buy _ hdamp

theorem C5_amended_witness :
    (generate_signal demo_unif (generate_indicators demo_unif 50 43450 9)
        (calculate_risk_score (generate_indicators demo_unif 50 43450 9) demo_quote9) 9).1
      = "HOLD" ∨
    (generate_signal demo_unif (generate_indicators demo_unif 50 43450 9)
        (calculate_risk_score (generate_indicators demo_unif 50 43450 9) demo_quote9) 9).1
      = "SELL" ∨
    (generate_signal demo_unif (generate_indicators demo_unif 50 43450 9)
        (calculate_risk_score (generate_indicators demo_unif 50 43450 9) demo_quote9) 9).1
      = "STRONG SELL" :=
  (C5_amended_no_buy_class demo_unif demo_unif_bounds 50 (by norm_num) (by norm_num)
    43450 demo_quote9).2.2

/-- The claim's order on signal classes:
STRONG SELL < SELL < HOLD < BUY < STRONG BUY. -/
def class_order (s : String) : ℤ :=
  if s = "STRONG SELL" then 0
  else if s = "SELL" then 1
  else if s = "HOLD" then 2
  else if s = "BUY" then 3
  else 4

theorem classify_mono {a b : ℚ} (cf : ℚ) (h : a ≤ b) :
    class_order (classify_signal a cf).1 ≤ class_order (classify_signal b cf).1 := by
  unfold classify_signal
  split_ifs <;> dsimp only <;> first | decide | linarith

theorem dampen_mono {a b : ℚ} (r : ℤ) (h : a < b) :
    dampen_score r a < dampen_score r b := by
  unfold dampen_score
  split_ifs <;> linarith

/-- C7: classification is monotone in the score at classification time: for
a strictly larger score (same confidence), the class never moves toward the
SELL side in the order STRONG SELL < SELL < HOLD < BUY < STRONG BUY; the
risk-dampening multipliers (×0.6, ×0.8) are strictly increasing, so applying
the same dampening to both scores preserves the monotonicity. -/
theorem C7_classification_monotone (s1 s2 cf : ℚ) (risk : ℤ) (h : s1 < s2) :
    class_order (classify_signal s1 cf).1 ≤ class_order (classify_signal s2 cf).1 ∧
    dampen_score risk s1 < dampen_score risk s2 ∧
    class_order (classify_signal (dampen_score risk s1) cf).1
      ≤ class_order (classify_signal (dampen_score risk s2) cf).1 :=
  ⟨classify_mono cf (le_of_lt h), dampen_mono risk h,
   classify_mono cf (le_of_lt (dampen_mono risk h))⟩

theorem C7_witness :
    class_order (classify_signal 0 0.6).1 ≤ class_order (classify_signal 3 0.6).1 ∧
    dampen_score 6 0 < dampen_score 6 3 ∧
    class_order (classify_signal (dampen_score 6 0) 0.6).1
      ≤ class_order (classify_signal (dampen_score 6 3) 0.6).1 :=
  C7_classification_monotone 0 3 0.6 6 (by norm_num)

theorem fallback_jitter_bound {p u : ℚ} (hp : 0 ≤ p)
    (h1 : -0.02 ≤ u) (h2 : u ≤ 0.02) :
    |p * (1 + u) - p| ≤ 0.02 * p := by
  have h3 : p * (1 + u) - p = p * u := by ring
  rw [h3, abs_mul, abs_of_nonneg hp]
  have h4 : |u| ≤ 0.02 := abs_le.mpr ⟨h1, h2⟩
  calc p * |u| ≤ p * 0.02 := mul_le_mul_of_nonneg_left h4 hp
  _ = 0.02 * p := by ring

theorem fallback_price_pos (s : String) : 0 < fallback_price s := by
  unfold fallback_price
  split_ifs <;> norm_num

theorem fallback_table_price_pos :
    ∀ sp ∈ fallback_prices, fallback_price sp.1 = sp.2 ∧ (0 : ℚ) < sp.2 := by
  decide

theorem fallback_price_unknown {s : String} (hs : s ∉ coins) :
    fallback_price s = 100 := by
  unfold fallback_price
  split_ifs with h1 h2 h3 h4 h5 h6 h7 h8 h9 h10
  · exact absurd (by rw [h1]; decide) hs
  · exact absurd (by rw [h2]; decide) hs
  · exact absurd (by rw [h3]; decide) hs
  · exact absurd (by rw [h4]; decide) hs
  · exact absurd (by rw [h5]; decide) hs
  · exact absurd (by rw [h6]; decide) hs
  · exact absurd (by rw [h7]; decide) hs
  · exact absurd (by rw [h8]; decide) hs
  · exact absurd (by rw [h9]; decide) hs
  · exact absurd (by rw [h10]; decide) hs
  · rfl

/-- C8: for any within-bounds draws, a single fallback quote has price
within ±2% of the symbol's fixed base price, 24h change in `[-5, 5]`,
volume 0 and `source = "fallback"`; an unknown symbol uses base price 100;
and every entry of the batch fallback generator satisfies the same bounds
for its own symbol's base price. -/
theorem C8_fallback_quote_bounds (symbol : String) (unif : ℚ → ℚ → ℚ)
    (unifs : String → ℚ → ℚ → ℚ) (now : ℚ)
    (hu : UnifBounds unif) (hus : UnifFamBounds unifs) :
    (|(get_fallback_data symbol unif now).price - fallback_price symbol|
        ≤ 0.02 * fallback_price symbol ∧
     -5 ≤ (get_fallback_data symbol unif now).price_change_24h ∧
     (get_fallback_data symbol unif now).price_change_24h ≤ 5 ∧
     (get_fallback_data symbol unif now).volume = 0 ∧
     (get_fallback_data symbol unif now).source = "fallback") ∧
    (symbol ∉ coins → fallback_price symbol = 100) ∧
    (∀ s q, (s, q) ∈ get_all_fallback_data unifs now →
      |q.price - fallback_price s| ≤ 0.02 * fallback_price s ∧
      -5 ≤ q.price_change_24h ∧ q.price_change_24h ≤ 5 ∧
      q.volume = 0 ∧ q.source = "fallback") := by
  refine ⟨?_, fun hs => fallback_price_unknown hs, ?_⟩
  · obtain ⟨hj1, hj2⟩ := hu (-0.02) 0.02 (by norm_num)
    obtain ⟨hc1, hc2⟩ := hu (-5) 5 (by norm_num)
    exact ⟨fallback_jitter_bound (le_of_lt (fallback_price_pos symbol)) hj1 hj2,
      hc1, hc2, rfl, rfl⟩
  · intro s q hq
    simp only [get_all_fallback_data, List.mem_map] at hq
    rcases hq with ⟨sp, hsp, heq⟩
    cases heq
    obtain ⟨hfp, hpos⟩ := fallback_table_price_pos sp hsp
    obtain ⟨hj1, hj2⟩ := hus sp.1 (-0.02) 0.02 (by norm_num)
    obtain ⟨hc1, hc2⟩ := hus sp.1 (-5) 5 (by norm_num)
    refine ⟨?_, hc1, hc2, rfl, rfl⟩
    rw [hfp]
    exact fallback_jitter_bound (le_of_lt hpos) hj1 hj2

theorem C8_witness :
    |(get_fallback_data "BTC" demo_unif 0).price - fallback_price "BTC"|
      ≤ 0.02 * fallback_price "BTC" :=
  (C8_fallback_quote_bounds "BTC" demo_unif demo_unifs 0 demo_unif_bounds
    demo_unifs_bounds).1.1

theorem rr_spec (p : ℚ) (s : String) (r : ℤ) (A B : ℚ)
    (hb : targets_raw p s r = (p * A, p * B)) (hB : B ≠ 1)
    (hno : roundTo 2 (|A - 1| / |1 - B|) ≠ 1) :
    ((calculate_targets p s r).risk_reward_ratio = 1 ↔ p = (targets_raw p s r).2)
    := by
  have hrr : (calculate_targets p s r).risk_reward_ratio
      = if |p - (targets_raw p s r).2| > 0
        then roundTo 2 (|(targets_raw p s r).1 - p| / |p - (targets_raw p s r).2|)
        else 1.0 := rfl
  rw [hrr, hb]
  dsimp only
  rcases eq_or_ne p 0 with rfl | hp
  · norm_num
  · have hpB : p ≠ p * B := by
      intro h
      apply hB
      have h1 : p * 1 = p * B := by rw [mul_one]; exact h
      exact (mul_left_cancel₀ hp h1).symm
    have habs : |p - p * B| > 0 := abs_pos.mpr (sub_ne_zero.mpr hpB)
    rw [if_pos habs]
    constructor
    · intro h1
      exfalso
      apply hno
      have eqn : p * A - p = p * (A - 1) := by ring
      have eqd : p - p * B = p * (1 - B) := by ring
      have eq3 : |p| * |A - 1| / (|p| * |1 - B|) = |A - 1| / |1 - B| :=
        mul_div_mul_left _ _ (abs_ne_zero.mpr hp)
      rw [← eq3, ← abs_mul, ← abs_mul, ← eqn, ← eqd]
      exact h1
    · intro h
      exact absurd h hpB

/-- C6: for every price, every integer risk score in `[1, 10]` and every
signal class, the risk/reward ratio returned by `calculate_targets` equals
`|takeProfit − price| / |price − stopLoss|` rounded to 2 decimals whenever
the denominator is nonzero, and equals exactly `1.0` if and only if the
price equals the (unrounded) stop-loss level used in that formula. -/
theorem C6_risk_reward_formula (p : ℚ) (r : ℤ) (s : String)
    (hr1 : 1 ≤ r) (hr2 : r ≤ 10)
    (hs : s = "STRONG BUY" ∨ s = "BUY" ∨ s = "HOLD" ∨ s = "SELL" ∨
      s = "STRONG SELL") :
    (|p - (targets_raw p s r).2| ≠ 0 →
      (calculate_targets p s r).risk_reward_ratio
        = roundTo 2 (|(targets_raw p s r).1 - p| / |p - (targets_raw p s r).2|)) ∧
    ((calculate_targets p s r).risk_reward_ratio = 1 ↔ p = (targets_raw p s r).2)
    := by
  constructor
  · intro hne
    have hpos : |p - (targets_raw p s r).2| > 0 :=
      lt_of_le_of_ne (abs_nonneg _) (Ne.symm hne)
    have hrr : (calculate_targets p s r).risk_reward_ratio
        = if |p - (targets_raw p s r).2| > 0
          then roundTo 2 (|(targets_raw p s r).1 - p| / |p - (targets_raw p s r).2|)
          else 1.0 := rfl
    rw [hrr, if_pos hpos]
  · rcases hs with rfl | rfl | rfl | rfl | rfl
    · refine rr_spec p _ r (1.15 * (1 - (r : ℚ) * 0.005)) 0.88 ?_ (by norm_num) ?_
      · unfold targets_raw targets_base
        rw [if_pos (by decide)]
        exact Prod.ext (by ring) rfl
      · interval_cases r <;> decide
    · refine rr_spec p _ r (1.10 * (1 - (r : ℚ) * 0.005)) 0.92 ?_ (by norm_num) ?_
      · unfold targets_raw targets_base
        rw [if_neg (by decide), if_pos (by decide)]
        exact Prod.ext (by ring) rfl
      · interval_cases r <;> decide
    · refine rr_spec p _ r (1.05 * (1 - (r : ℚ) * 0.005)) 0.95 ?_ (by norm_num) ?_
      · unfold targets_raw targets_base
        rw [if_neg (by decide), if_neg (by decide), if_neg (by decide),
          if_neg (by decide)]
        exact Prod.ext (by ring) rfl
      · interval_cases r <;> decide
    · refine rr_spec p _ r (0.90 * (1 - (r : ℚ) * 0.005)) 1.08 ?_ (by norm_num) ?_
      · unfold targets_raw targets_base
        rw [if_neg (by decide), if_neg (by decide), if_neg (by decide),
          if_pos (by decide)]
        exact Prod.ext (by ring) rfl
      · interval_cases r <;> decide
    · refine rr_spec p _ r (0.85 * (1 - (r : ℚ) * 0.005)) 1.12 ?_ (by norm_num) ?_
      · unfold targets_raw targets_base
        rw [if_neg (by decide), if_neg (by decide), if_pos (by decide)]
        exact Prod.ext (by ring) rfl
      · interval_cases r <;> decide

theorem C6_witness :
    ((1 : ℤ) ≤ 5 ∧ (5 : ℤ) ≤ 10) ∧
    ((calculate_targets 100 "BUY" 5).risk_reward_ratio = 1 ↔
      (100 : ℚ) = (targets_raw 100 "BUY" 5).2) :=
  ⟨⟨by norm_num, by norm_num⟩,
   (C6_risk_reward_formula 100 5 "BUY" (by norm_num) (by norm_num)
     (Or.inr (Or.inl rfl))).2⟩

